import Mathlib

/-!
Shallow embedding of the scoring and recommendation logic of the Nexora
backend (`nexora/python_services`).  Python floats are modelled as exact
rationals (`ℚ`), Python ints as `ℤ`, Python strings as `String`, and
Python `None`/missing values as `Option`.  Each definition is translated
from a named function of the source; the file then settles the frozen
claims C1–C10 about that logic.
-/

namespace Nexora

/-! ## Risk scoring (`_calculate_risk_score`, combined_api.py lines 766–804;
the identical prefix also appears in combined_api_backup_complex.py
lines 1880–1929, which additionally derives a business-size class). -/

/-- `asset_total`: sum of the numeric values of the `assets` mapping.
`float(v) if v is not None else 0` — a `None` value contributes `0`; a value
that fails `float()` conversion is skipped by the `except` clause, which is
the same as contributing `0`, so asset values are modelled as `Option ℚ`. -/
def assetTotal (assets : List (Option ℚ)) : ℚ :=
  (assets.map (fun v => v.getD 0)).sum

/-- The asset-weighting bracket added to the base score
(`if asset_total > 5_000_000: base += 25` …). -/
def assetBracket (asset_total : ℚ) : ℤ :=
  if asset_total > 5000000 then 25
  else if asset_total > 1000000 then 18
  else if asset_total > 250000 then 12
  else if asset_total > 50000 then 6
  else 0

/-- The workforce bracket (`if workforce_size: if workforce_size > 200: …`).
The outer guard is Python truthiness: it skips the brackets when
`workforce_size == 0`. -/
def workforceBracket (workforce_size : ℤ) : ℤ :=
  if workforce_size ≠ 0 then
    if workforce_size > 200 then 15
    else if workforce_size > 50 then 10
    else if workforce_size > 10 then 5
    else 0
  else 0

/-- `concern_points = min(len(set(risk_concerns)) * 3, 18)`.
`set(risk_concerns)` de-duplicates, so its size is `List.dedup.length`. -/
def concernPoints (risk_concerns : List String) : ℤ :=
  min (risk_concerns.dedup.length * 3) 18

/-- The clamped risk score as a function of the already-summed asset
total: `score = max(0, min(100, 40 + brackets + concern_points))`. -/
def riskScoreOfTotal (asset_total : ℚ) (workforce_size : ℤ)
    (risk_concerns : List String) : ℤ :=
  max 0 (min 100
    (40 + assetBracket asset_total + workforceBracket workforce_size
       + concernPoints risk_concerns))

/-- `_calculate_risk_score`'s `risk_score` result field. -/
def riskScore (assets : List (Option ℚ)) (workforce_size : ℤ)
    (risk_concerns : List String) : ℤ :=
  riskScoreOfTotal (assetTotal assets) workforce_size risk_concerns

/-- The level label derived from the score (`>= 80` High, `>= 65` Medium,
`>= 50` Elevated, else Low). -/
def riskLevel (score : ℤ) : String :=
  if score ≥ 80 then "High"
  else if score ≥ 65 then "Medium"
  else if score ≥ 50 then "Elevated"
  else "Low"

/-- Business-size classification from the backup_complex variant
(`<= 10` micro, `<= 50` small, `<= 250` medium, else large). -/
def businessSize (workforce_size : ℤ) : String :=
  if workforce_size ≤ 10 then "micro"
  else if workforce_size ≤ 50 then "small"
  else if workforce_size ≤ 250 then "medium"
  else "large"

end Nexora

namespace Nexora

/-! ### Claims C1 and C2 -/

/-- **C1.** For every assets mapping with non-negative numeric values, every
workforce size ≥ 0 and every risk-concern list, `_calculate_risk_score`
returns a risk score within [0, 100], and the risk-concern contribution
`min(distinct_concern_count * 3, 18)` never exceeds 18. -/
theorem risk_score_bounded (assets : List (Option ℚ)) (workforce_size : ℤ)
    (risk_concerns : List String)
    (hassets : ∀ v ∈ assets, ∀ x ∈ v, (0:ℚ) ≤ x)
    (hw : 0 ≤ workforce_size) :
    0 ≤ riskScore assets workforce_size risk_concerns ∧
      riskScore assets workforce_size risk_concerns ≤ 100 ∧
      concernPoints risk_concerns ≤ 18 := by
  refine ⟨le_max_left _ _, ?_, ?_⟩
  · unfold riskScore riskScoreOfTotal
    have h100 : min 100 (40 + assetBracket (assetTotal assets)
        + workforceBracket workforce_size + concernPoints risk_concerns) ≤ 100 :=
      min_le_left _ _
    omega
  · exact min_le_right _ _

/-- Witness for `risk_score_bounded` at a concrete input. -/
theorem risk_score_bounded_witness :
    0 ≤ riskScore [some 250000, some 150000, some 100000, some 500000] 25
        ["cyber", "professional_liability", "employee_welfare", "fire"] ∧
      riskScore [some 250000, some 150000, some 100000, some 500000] 25
        ["cyber", "professional_liability", "employee_welfare", "fire"] ≤ 100 ∧
      concernPoints ["cyber", "professional_liability", "employee_welfare", "fire"] ≤ 18 :=
  risk_score_bounded _ _ _ (by decide) (by decide)

/-- `assetBracket` is monotone. -/
theorem assetBracket_mono {t₁ t₂ : ℚ} (h : t₁ ≤ t₂) :
    assetBracket t₁ ≤ assetBracket t₂ := by
  unfold assetBracket
  split_ifs <;> first | omega | linarith

/-- `workforceBracket` is monotone on non-negative workforce sizes. -/
theorem workforceBracket_mono {w₁ w₂ : ℤ} (h0 : 0 ≤ w₁) (h : w₁ ≤ w₂) :
    workforceBracket w₁ ≤ workforceBracket w₂ := by
  unfold workforceBracket
  split_ifs <;> omega

/-- **C2.** Holding the other inputs fixed, the risk score is monotonically
non-decreasing in the total declared asset value, and monotonically
non-decreasing in the workforce size, over non-negative values. -/
theorem risk_score_monotone (t₁ t₂ : ℚ) (w₁ w₂ : ℤ) (risk_concerns : List String)
    (ht₁ : 0 ≤ t₁) (hw₁ : 0 ≤ w₁) :
    (t₁ ≤ t₂ → riskScoreOfTotal t₁ w₁ risk_concerns ≤
        riskScoreOfTotal t₂ w₁ risk_concerns) ∧
    (w₁ ≤ w₂ → riskScoreOfTotal t₁ w₁ risk_concerns ≤
        riskScoreOfTotal t₁ w₂ risk_concerns) := by
  constructor
  · intro ht
    have hb := assetBracket_mono ht
    unfold riskScoreOfTotal
    omega
  · intro hw
    have hb := workforceBracket_mono hw₁ hw
    unfold riskScoreOfTotal
    omega

/-- Witness for `risk_score_monotone` at concrete inputs. -/
theorem risk_score_monotone_witness :
    ((300000:ℚ) ≤ 2000000 → riskScoreOfTotal 300000 25 ["fire"] ≤
        riskScoreOfTotal 2000000 25 ["fire"]) ∧
    ((25:ℤ) ≤ 60 → riskScoreOfTotal 300000 25 ["fire"] ≤
        riskScoreOfTotal 300000 60 ["fire"]) :=
  risk_score_monotone 300000 2000000 25 60 ["fire"] (by norm_num) (by decide)

/-! ## Python numeric helpers used by the handlers -/

/-- Python's `round` to an integer: round half to even (banker's rounding),
modelled on exact rationals. -/
def roundHalfEven (q : ℚ) : ℤ :=
  let f := ⌊q⌋
  let r := q - f
  if r < 1/2 then f
  else if r > 1/2 then f + 1
  else if f % 2 = 0 then f else f + 1

/-- Python's `round(x, 2)`. -/
def round2 (q : ℚ) : ℚ := (roundHalfEven (q * 100) : ℚ) / 100

/-- Python's `round(x, 1)`. -/
def round1 (q : ℚ) : ℚ := (roundHalfEven (q * 10) : ℚ) / 10

/-- Python's `int(x)` on a float: truncation toward zero. -/
def pyInt (q : ℚ) : ℤ := if 0 ≤ q then ⌊q⌋ else -⌊-q⌋

/-- Python's `x or default` on an optional numeric value: `None` and `0`
are both falsy and replaced by the default. -/
def pyOr (v : Option ℚ) (default : ℚ) : ℚ :=
  match v with
  | none => default
  | some x => if x = 0 then default else x

/-! ## Coverage and premium estimation (`insurance_assess`,
combined_api.py lines 831–844; byte-identical in
combined_api_backup_complex.py lines 1987–2000). -/

/-- `min_cov = float(tpl.get('min_coverage_amount') or 0)`. -/
def minCov (min_coverage_amount : Option ℚ) : ℚ := pyOr min_coverage_amount 0

/-- `max_cov = float(tpl.get('max_coverage_amount') or min_cov)`. -/
def maxCov (max_coverage_amount : Option ℚ) (min_cov : ℚ) : ℚ :=
  pyOr max_coverage_amount min_cov

/-- `coverage_est`: linear interpolation between the template's coverage
bounds, weighted by `min(1.0, asset_total / (max_cov * 1.2))` when
`max_cov > min_cov`, else `min_cov`. -/
def coverageEst (min_cov max_cov asset_total : ℚ) : ℚ :=
  if max_cov > min_cov then
    min_cov + (min 1 (asset_total / (max_cov * (12/10))) * (max_cov - min_cov))
  else
    min_cov

/-- `premium_est = round(base_premium * (1 + risk_score / 200), 2)`. -/
def premiumEst (base_premium : ℚ) (risk_score : ℤ) : ℚ :=
  round2 (base_premium * (1 + (risk_score : ℚ) / 200))

/-- The displayed premium range `(int(premium_est*0.9), int(premium_est*1.2))`
from `premium_range = f"₹{int(premium_est*0.9)} - ₹{int(premium_est*1.2)}"`. -/
def premiumRange (premium_est : ℚ) : ℤ × ℤ :=
  (pyInt (premium_est * (9/10)), pyInt (premium_est * (12/10)))

/-! ### Claim C3 -/

/-- **C3.** For every template with `0 ≤ min_coverage_amount ≤
max_coverage_amount` and every `asset_total ≥ 0`, the interpolated coverage
estimate lies between `min_coverage_amount` and `max_coverage_amount`. -/
theorem coverage_est_bounded (min_cov max_cov asset_total : ℚ)
    (hmin : 0 ≤ min_cov) (hle : min_cov ≤ max_cov) (hat : 0 ≤ asset_total) :
    min_cov ≤ coverageEst min_cov max_cov asset_total ∧
      coverageEst min_cov max_cov asset_total ≤ max_cov := by
  unfold coverageEst
  split_ifs with h
  · have hpos : (0:ℚ) < max_cov * (12/10) := by linarith
    have hf0 : 0 ≤ asset_total / (max_cov * (12/10)) :=
      div_nonneg hat (le_of_lt hpos)
    have hfrac0 : 0 ≤ min 1 (asset_total / (max_cov * (12/10))) :=
      le_min (by norm_num) hf0
    have hfrac1 : min 1 (asset_total / (max_cov * (12/10))) ≤ 1 :=
      min_le_left _ _
    constructor
    · nlinarith
    · nlinarith
  · exact ⟨le_refl _, hle⟩

/-- Witness for `coverage_est_bounded` at a concrete input. -/
theorem coverage_est_bounded_witness :
    (100000:ℚ) ≤ coverageEst 100000 1000000 500000 ∧
      coverageEst 100000 1000000 500000 ≤ 1000000 :=
  coverage_est_bounded 100000 1000000 500000 (by norm_num) (by norm_num)
    (by norm_num)

/-! ### Claim C4 -/

/-- `roundHalfEven` is the identity on integers. -/
theorem roundHalfEven_intCast (k : ℤ) : roundHalfEven (k : ℚ) = k := by
  unfold roundHalfEven
  norm_num

/-- **C4 counterexample.** The claim says a risk score of 0 yields exactly
`base_premium`; for `base_premium = 0.001` the code returns
`round(0.001, 2) = 0 ≠ 0.001`. -/
theorem premium_at_zero_not_exact : premiumEst (1/1000) 0 ≠ 1/1000 := by
  have h : premiumEst (1/1000) 0 = 0 := by
    unfold premiumEst round2 roundHalfEven
    norm_num
  rw [h]
  norm_num

/-- **C4 (amended).** The premium estimate equals
`round(base_premium * (1 + risk_score/200), 2)`; a risk score of 0 yields
exactly `base_premium` whenever `base_premium` is a whole number of
hundredths, a risk score of 100 yields exactly `1.5 × base_premium`
whenever `1.5 × base_premium` is a whole number of hundredths, and the
displayed premium range is the integer truncation of 0.9× and 1.2× the
point estimate. -/
theorem premium_est_formula (base : ℚ) (rs : ℤ) (k₀ k₁ : ℤ) :
    premiumEst base rs = round2 (base * (1 + (rs : ℚ) / 200)) ∧
    (base * 100 = (k₀ : ℚ) → premiumEst base 0 = base) ∧
    (base * 150 = (k₁ : ℚ) → premiumEst base 100 = 3/2 * base) ∧
    premiumRange (premiumEst base rs) =
      (pyInt (premiumEst base rs * (9/10)), pyInt (premiumEst base rs * (12/10))) := by
  refine ⟨rfl, ?_, ?_, rfl⟩
  · intro h0
    have hbase : base = (k₀ : ℚ) / 100 := by
      field_simp at h0 ⊢
      linarith
    unfold premiumEst round2
    have harg : base * (1 + ((0:ℤ) : ℚ) / 200) * 100 = (k₀ : ℚ) := by
      push_cast
      linarith
    rw [harg, roundHalfEven_intCast, hbase]
  · intro h1
    have hbase : base = (k₁ : ℚ) / 150 := by
      field_simp at h1 ⊢
      linarith
    unfold premiumEst round2
    have harg : base * (1 + ((100:ℤ) : ℚ) / 200) * 100 = (k₁ : ℚ) := by
      push_cast
      linarith
    rw [harg, roundHalfEven_intCast, hbase]
    ring

/-- Witness for `premium_est_formula`: a two-decimal base premium is
returned exactly at risk score 0, and scaled by exactly 1.5 at 100. -/
theorem premium_est_formula_witness :
    premiumEst 100 0 = 100 ∧ premiumEst 100 100 = 3/2 * 100 :=
  ⟨(premium_est_formula 100 0 10000 15000).2.1 (by norm_num),
   (premium_est_formula 100 100 10000 15000).2.2.1 (by norm_num)⟩

/-! ## Insurance assessment (`insurance_assess`).
Two variants exist: `combined_api.py` lines 806–889 (no match scoring, no
fallback, no sorting) and `combined_api_backup_complex.py` lines
1931–2102 (match scoring, first-template fallback, sort by match score
descending).  Display-only formatted strings (`coverage_range`, the
`reason` text, `compliance_badge`) are elided; the numeric data they are
rendered from is kept. -/

/-- `InsuranceAssessmentRequest` (the fields the assessment logic reads).
`preferences` is reduced to the only key the code reads,
`(req.preferences or {}).get('focus')`. -/
structure AssessmentRequest where
  business_type : String
  assets : List (Option ℚ)
  workforce_size : Option ℤ
  risk_concerns : List String
  focus : Option String

/-- An `insurance_templates` row as read by the handler (`tpl.get(...)`). -/
structure InsuranceTemplate where
  template_id : ℕ
  policy_name : String
  policy_type : String
  provider_name : String
  business_types : List String
  risk_categories : List String
  min_coverage_amount : Option ℚ
  max_coverage_amount : Option ℚ
  base_premium : Option ℚ
  legal_compliance : Bool
deriving DecidableEq

/-- The dictionary returned by the backup_complex `_calculate_risk_score`. -/
structure RiskCalc where
  risk_score : ℤ
  risk_level : String
  asset_total : ℚ
  business_size : String
deriving DecidableEq

/-- `_calculate_risk_score` of combined_api_backup_complex.py (lines
1880–1929): the shared score plus the business-size class. -/
def calculateRiskScoreComplex (assets : List (Option ℚ)) (workforce_size : ℤ)
    (risk_concerns : List String) : RiskCalc :=
  let t := assetTotal assets
  let s := riskScoreOfTotal t workforce_size risk_concerns
  { risk_score := s
    risk_level := riskLevel s
    asset_total := t
    business_size := businessSize workforce_size }

/-- `risk_calc = _calculate_risk_score(req.assets, req.workforce_size or 0,
req.risk_concerns)`. -/
def requestRiskCalc (req : AssessmentRequest) : RiskCalc :=
  calculateRiskScoreComplex req.assets (req.workforce_size.getD 0)
    req.risk_concerns

/-- `risk_match_set = tpl_risks.intersection(req.risk_concerns)` where
`tpl_risks = set(tpl.get('risk_categories') or [])`: the distinct template
risk categories that appear among the requester's concerns. -/
def riskMatch (tpl : InsuranceTemplate) (req : AssessmentRequest) : List String :=
  tpl.risk_categories.dedup.filter (· ∈ req.risk_concerns)

/-- `(req.preferences or {}).get('focus') in tpl_risks`; a missing
`preferences` mapping or `focus` key gives `None`, which is in no set of
strings. -/
def focusMatch (req : AssessmentRequest) (tpl : InsuranceTemplate) : Bool :=
  match req.focus with
  | some f => f ∈ tpl.risk_categories
  | none => false

/-- The match-score heuristic of combined_api_backup_complex.py lines
2003–2008. -/
def matchScore (req : AssessmentRequest) (rc : RiskCalc)
    (tpl : InsuranceTemplate) : ℤ :=
  (riskMatch tpl req).length * 10
    + (if req.business_type ∈ tpl.business_types then 15 else 0)
    + (if rc.business_size = "small" ∨ rc.business_size = "medium" then 5 else 0)
    + (if focusMatch req tpl then 3 else 0)

/-- A recommendation entry (backup_complex variant, lines 2017–2035). -/
structure Recommendation where
  template_id : ℕ
  policy_name : String
  policy_type : String
  provider_name : String
  estimated_coverage_amount : ℚ
  premium_estimate : ℚ
  premium_range : ℤ × ℤ
  legal_compliance : Bool
  risk_match : List String
  match_score : ℤ
deriving DecidableEq

/-- The candidate built inside the template loop for a template that passed
the business-type filter. -/
def buildCandidate (req : AssessmentRequest) (rc : RiskCalc)
    (tpl : InsuranceTemplate) : Recommendation :=
  let min_cov := minCov tpl.min_coverage_amount
  let max_cov := maxCov tpl.max_coverage_amount min_cov
  let cov := coverageEst min_cov max_cov rc.asset_total
  let base := pyOr tpl.base_premium 0
  let prem := premiumEst base rc.risk_score
  { template_id := tpl.template_id
    policy_name := tpl.policy_name
    policy_type := tpl.policy_type
    provider_name := tpl.provider_name
    estimated_coverage_amount := round2 cov
    premium_estimate := prem
    premium_range := premiumRange prem
    legal_compliance := tpl.legal_compliance
    risk_match := riskMatch tpl req
    match_score := matchScore req rc tpl }

/-- The template loop: skip templates whose `business_types` does not
contain the requester's `business_type`, build a candidate for the rest. -/
def candidates (req : AssessmentRequest)
    (templates : List InsuranceTemplate) : List Recommendation :=
  templates.filterMap (fun tpl =>
    if req.business_type ∈ tpl.business_types then
      some (buildCandidate req (requestRiskCalc req) tpl)
    else none)

/-- The baseline fallback entry built from a catalog template when the
filter produced no candidates (backup_complex lines 2040–2063). -/
def fallbackRec (tpl : InsuranceTemplate) : Recommendation :=
  let min_cov := minCov tpl.min_coverage_amount
  let base := pyOr tpl.base_premium 0
  let prem := round2 (base * (11/10))
  { template_id := tpl.template_id
    policy_name := tpl.policy_name
    policy_type := tpl.policy_type
    provider_name := tpl.provider_name
    estimated_coverage_amount := min_cov
    premium_estimate := prem
    premium_range := premiumRange prem
    legal_compliance := tpl.legal_compliance
    risk_match := []
    match_score := 0 }

/-- One step of the stable descending sort by `match_score`: the inserted
element comes from earlier in the original list than everything already in
the sorted tail, so it is placed before the first element whose score it
weakly exceeds (ties keep original order). -/
def insertByScore (r : Recommendation) :
    List Recommendation → List Recommendation
  | [] => [r]
  | x :: xs =>
    if x.match_score ≤ r.match_score then r :: x :: xs
    else x :: insertByScore r xs

/-- `recommended.sort(key=lambda r: r.get('match_score', 0), reverse=True)`:
Python's stable sort, descending by match score, modelled as stable
insertion sort (extensionally equal to any stable sort on this key). -/
def sortByScoreDesc : List Recommendation → List Recommendation
  | [] => []
  | x :: xs => insertByScore x (sortByScoreDesc xs)

/-- The recommendation pipeline of `insurance_assess` in
combined_api_backup_complex.py: filter/build, fall back to the first
catalog entry if empty, then sort by match score descending. -/
def assessRecommendationsComplex (req : AssessmentRequest)
    (templates : List InsuranceTemplate) : List Recommendation :=
  let recs := candidates req templates
  let recs :=
    if recs = [] ∧ templates ≠ [] then (templates.take 1).map fallbackRec
    else recs
  sortByScoreDesc recs

/-- The recommendation list of `insurance_assess` in combined_api.py
(lines 820–861): the same filter and per-template estimates, but no match
score, no fallback and no sorting.  Only the fields the claims consult are
kept (the entries carry the same numeric estimates as `buildCandidate`). -/
def assessRecommendationsSimple (req : AssessmentRequest)
    (templates : List InsuranceTemplate) : List (ℕ × ℚ × ℚ × List String) :=
  templates.filterMap (fun tpl =>
    if req.business_type ∈ tpl.business_types then
      let min_cov := minCov tpl.min_coverage_amount
      let max_cov := maxCov tpl.max_coverage_amount min_cov
      let cov := coverageEst min_cov max_cov (requestRiskCalc req).asset_total
      let base := pyOr tpl.base_premium 0
      some (tpl.template_id, round2 cov,
        premiumEst base (requestRiskCalc req).risk_score, riskMatch tpl req)
    else none)

/-! ### Sorting lemmas -/

/-- Membership is preserved by `insertByScore`. -/
theorem mem_insertByScore {y r : Recommendation} {l : List Recommendation} :
    y ∈ insertByScore r l ↔ y = r ∨ y ∈ l := by
  induction l with
  | nil => simp [insertByScore]
  | cons x xs ih =>
    unfold insertByScore
    split_ifs with h
    · simp only [List.mem_cons]
    · simp only [List.mem_cons, ih]
      tauto

/-- `insertByScore` adds exactly one element. -/
theorem insertByScore_length (r : Recommendation) (l : List Recommendation) :
    (insertByScore r l).length = l.length + 1 := by
  induction l with
  | nil => rfl
  | cons x xs ih =>
    unfold insertByScore
    split_ifs with h
    · rfl
    · simp [ih]

/-- `sortByScoreDesc` preserves length. -/
theorem sortByScoreDesc_length (l : List Recommendation) :
    (sortByScoreDesc l).length = l.length := by
  induction l with
  | nil => rfl
  | cons x xs ih =>
    unfold sortByScoreDesc
    rw [insertByScore_length, ih, List.length_cons]

/-- `insertByScore` keeps the list sorted in non-increasing match-score
order. -/
theorem insertByScore_pairwise {r : Recommendation} {l : List Recommendation}
    (h : l.Pairwise (fun a b => b.match_score ≤ a.match_score)) :
    (insertByScore r l).Pairwise (fun a b => b.match_score ≤ a.match_score) := by
  induction l with
  | nil => simp [insertByScore]
  | cons x xs ih =>
    rw [List.pairwise_cons] at h
    obtain ⟨hx, hxs⟩ := h
    unfold insertByScore
    split_ifs with hcmp
    · refine List.pairwise_cons.2 ⟨?_, List.pairwise_cons.2 ⟨hx, hxs⟩⟩
      intro y hy
      rcases List.mem_cons.1 hy with rfl | hy'
      · exact hcmp
      · exact le_trans (hx y hy') hcmp
    · refine List.pairwise_cons.2 ⟨?_, ih hxs⟩
      intro y hy
      rcases mem_insertByScore.1 hy with rfl | hy'
      · omega
      · exact hx y hy'

/-- `sortByScoreDesc` outputs a list sorted in non-increasing match-score
order. -/
theorem sortByScoreDesc_pairwise (l : List Recommendation) :
    (sortByScoreDesc l).Pairwise (fun a b => b.match_score ≤ a.match_score) := by
  induction l with
  | nil => simp [sortByScoreDesc]
  | cons x xs ih => exact insertByScore_pairwise ih

/-! ### Claims C5 and C6 -/

/-- A request whose business type matches no template in the catalog
below. -/
def reqTech : AssessmentRequest :=
  { business_type := "tech"
    assets := [some 100000]
    workforce_size := some 5
    risk_concerns := ["fire"]
    focus := none }

/-- A one-entry catalog applicable only to retail businesses. -/
def tplRetail : InsuranceTemplate :=
  { template_id := 1
    policy_name := "Shop Protection"
    policy_type := "property"
    provider_name := "Acme Insurance"
    business_types := ["retail"]
    risk_categories := ["fire", "theft"]
    min_coverage_amount := some 100000
    max_coverage_amount := some 500000
    base_premium := some 5000
    legal_compliance := true }

/-- **C5 counterexample.** In combined_api.py's `insurance_assess` there is
no fallback: with a non-empty catalog whose only template does not list
the requested business type, the recommendation list is empty. -/
theorem assess_simple_empty_counterexample :
    assessRecommendationsSimple reqTech [tplRetail] = [] ∧
      ([tplRetail] : List InsuranceTemplate) ≠ [] := by
  constructor
  · simp [assessRecommendationsSimple, reqTech, tplRetail]
  · simp

/-- **C5 (amended).** In combined_api_backup_complex.py's
`insurance_assess`, for every non-empty template catalog and every
assessment input the recommendation list is non-empty: when filtering
yields zero candidates, the first catalog entry is returned as a baseline
offer.  combined_api.py's `insurance_assess` has no such fallback and can
return an empty list while templates exist. -/
theorem assess_complex_nonempty (req : AssessmentRequest)
    (templates : List InsuranceTemplate) (h : templates ≠ []) :
    assessRecommendationsComplex req templates ≠ [] := by
  have hlen : templates.length ≠ 0 := fun hc => h (List.eq_nil_of_length_eq_zero hc)
  intro hnil
  have hlen0 := congrArg List.length hnil
  rw [assessRecommendationsComplex] at hlen0
  simp only [sortByScoreDesc_length, List.length_nil] at hlen0
  by_cases hc : candidates req templates = []
  · rw [if_pos ⟨hc, h⟩] at hlen0
    rw [List.length_map, List.length_take] at hlen0
    omega
  · rw [if_neg (fun hand => hc hand.1)] at hlen0
    exact hc (List.eq_nil_of_length_eq_zero hlen0)

/-- Witness for `assess_complex_nonempty`: the fallback fires for the
unmatched request against the retail-only catalog. -/
theorem assess_complex_nonempty_witness :
    assessRecommendationsComplex reqTech [tplRetail] ≠ [] :=
  assess_complex_nonempty reqTech [tplRetail] (by simp)

/-- **C6.** Every candidate built by the backup_complex template loop has
match score `(risk-tag overlap × 10) + (15 if business type matches) +
(5 if the derived business size is small or medium) + (3 if the preference
focus is among the template's risk tags)`, and the returned recommendation
list is ordered by match score in non-increasing order. -/
theorem candidate_match_score_and_sorted (req : AssessmentRequest)
    (templates : List InsuranceTemplate) (r : Recommendation)
    (hr : r ∈ candidates req templates) :
    (∃ tpl ∈ templates, req.business_type ∈ tpl.business_types ∧
        r.match_score =
          (riskMatch tpl req).length * 10
            + (if req.business_type ∈ tpl.business_types then 15 else 0)
            + (if (requestRiskCalc req).business_size = "small" ∨
                  (requestRiskCalc req).business_size = "medium" then 5 else 0)
            + (if focusMatch req tpl then 3 else 0)) ∧
      (assessRecommendationsComplex req templates).Pairwise
        (fun a b => b.match_score ≤ a.match_score) := by
  constructor
  · obtain ⟨tpl, htpl, hsome⟩ := List.mem_filterMap.1 hr
    by_cases hbt : req.business_type ∈ tpl.business_types
    · rw [if_pos hbt] at hsome
      refine ⟨tpl, htpl, hbt, ?_⟩
      rw [← Option.some_inj.1 hsome]
      rfl
    · rw [if_neg hbt] at hsome
      exact absurd hsome (Option.noConfusion)
  · exact sortByScoreDesc_pairwise _

/-- A request that does match the retail template's business type. -/
def reqRetail : AssessmentRequest :=
  { business_type := "retail"
    assets := [some 100000]
    workforce_size := some 20
    risk_concerns := ["fire"]
    focus := some "fire" }

/-- Witness for `candidate_match_score_and_sorted` at a concrete matching
request and one-template catalog. -/
theorem candidate_match_score_and_sorted_witness :
    (∃ tpl ∈ [tplRetail], reqRetail.business_type ∈ tpl.business_types ∧
        (buildCandidate reqRetail (requestRiskCalc reqRetail) tplRetail).match_score =
          (riskMatch tpl reqRetail).length * 10
            + (if reqRetail.business_type ∈ tpl.business_types then 15 else 0)
            + (if (requestRiskCalc reqRetail).business_size = "small" ∨
                  (requestRiskCalc reqRetail).business_size = "medium" then 5 else 0)
            + (if focusMatch reqRetail tpl then 3 else 0)) ∧
      (assessRecommendationsComplex reqRetail [tplRetail]).Pairwise
        (fun a b => b.match_score ≤ a.match_score) :=
  candidate_match_score_and_sorted reqRetail [tplRetail]
    (buildCandidate reqRetail (requestRiskCalc reqRetail) tplRetail)
    (by simp [candidates, reqRetail, tplRetail])

/-! ## Dashboard credit score (`get_dashboard_credit_score`,
combined_api.py lines 557–621).  The user's invoice rows are reduced to
their `credit_score` column (`Option ℚ`: the score may be null). -/

/-- `mean_credit_score = sum(credit_scores) / len(credit_scores)`. -/
def meanCreditScore (scores : List ℚ) : ℚ := scores.sum / scores.length

/-- The category bucket applied to the mean (`>= 80` Excellent, `>= 70`
Good, `>= 60` Fair, else Poor). -/
def creditCategory (mean : ℚ) : String :=
  if mean ≥ 80 then "Excellent"
  else if mean ≥ 70 then "Good"
  else if mean ≥ 60 then "Fair"
  else "Poor"

/-- The `(credit_score, category)` pair returned by the endpoint: `(0, "No
Data")` when the user has no invoices or no non-null stored scores, else
the mean of the non-null stored scores rounded to one decimal
(`round(mean_credit_score, 1)`) with the category derived from the
unrounded mean. -/
def dashboardCreditScore (invoices : List (Option ℚ)) : ℚ × String :=
  if invoices = [] then (0, "No Data")
  else
    let credit_scores := invoices.filterMap id
    if credit_scores = [] then (0, "No Data")
    else (round1 (meanCreditScore credit_scores),
          creditCategory (meanCreditScore credit_scores))

/-! ### Claim C7 -/

/-- **C7 counterexample.** The endpoint returns the mean rounded to one
decimal, not the exact mean: for stored scores 70, 70 and 71 the mean is
211/3 = 70.333… but the returned credit score is 70.3. -/
theorem dashboard_score_not_exact_mean :
    (dashboardCreditScore [some 70, some 70, some 71]).1 = 703/10 ∧
      meanCreditScore [(70:ℚ), 70, 71] = 211/3 ∧
      (703/10 : ℚ) ≠ 211/3 := by
  refine ⟨?_, by norm_num [meanCreditScore], by norm_num⟩
  have hfm : ([some (70:ℚ), some 70, some 71].filterMap id) = [70, 70, 71] := rfl
  have hmean : (([70, 70, 71] : List ℚ).sum / (([70, 70, 71] : List ℚ).length : ℚ))
      = 211/3 := by norm_num
  have h1 : dashboardCreditScore [some 70, some 70, some 71]
      = (round1 (211/3), creditCategory (211/3)) := by
    unfold dashboardCreditScore
    rw [if_neg (List.cons_ne_nil _ _), hfm, if_neg (List.cons_ne_nil _ _)]
    unfold meanCreditScore
    rw [hmean]
  rw [h1]
  show round1 (211/3) = 703/10
  unfold round1 roundHalfEven
  rw [show ⌊(211/3 : ℚ) * 10⌋ = 703 by norm_num [Int.floor_eq_iff]]
  norm_num

/-- **C7 (amended).** The dashboard credit score equals the arithmetic
mean of the stored per-invoice scores rounded to one decimal — it is an
aggregate of stored values, not a holistic recomputation — and the
endpoint returns `(0, "No Data")` when the user has no invoices. -/
theorem dashboard_rounded_mean (invoices : List (Option ℚ))
    (h : invoices.filterMap id ≠ []) :
    dashboardCreditScore invoices =
      (round1 (meanCreditScore (invoices.filterMap id)),
       creditCategory (meanCreditScore (invoices.filterMap id))) ∧
      dashboardCreditScore [] = (0, "No Data") := by
  refine ⟨?_, rfl⟩
  have hne : invoices ≠ [] := by
    intro hnil
    rw [hnil] at h
    exact h rfl
  unfold dashboardCreditScore
  rw [if_neg hne, if_neg h]

/-- Witness for `dashboard_rounded_mean` at a single stored score. -/
theorem dashboard_rounded_mean_witness :
    dashboardCreditScore [some 80] =
      (round1 (meanCreditScore ([some (80:ℚ)].filterMap id)),
       creditCategory (meanCreditScore ([some (80:ℚ)].filterMap id))) ∧
      dashboardCreditScore [] = (0, "No Data") :=
  dashboard_rounded_mean [some 80] (by simp)

/-! ## Credit-score input construction from invoice history.
Two call sites aggregate a user's invoice rows into the
`FinancialSnapshot`-shaped mapping handed to the scorer:
`get_user_credit_score` (blockchain_loan_api.py lines 147–160) and the
historical aggregation of supabase_api.py (lines 397–416). -/

/-- The invoice-row columns these aggregations read. -/
structure InvoiceRow where
  total_amount : ℚ
  status : String
  tax_amount : ℚ
  extra_charges : ℚ
deriving DecidableEq

/-- `total_amount = sum(inv['total_amount'] for inv in invoices)`. -/
def totalAmountOf (invoices : List InvoiceRow) : ℚ :=
  (invoices.map (·.total_amount)).sum

/-- `total_paid`: sum over invoices with `status == 'paid'`. -/
def totalPaidOf (invoices : List InvoiceRow) : ℚ :=
  ((invoices.filter (fun i => i.status == "paid")).map (·.total_amount)).sum

/-- `total_pending`: sum over invoices with
`status in ['pending', 'processed']`. -/
def totalPendingOf (invoices : List InvoiceRow) : ℚ :=
  ((invoices.filter (fun i =>
      i.status == "pending" || i.status == "processed")).map (·.total_amount)).sum

/-- The `FinancialSnapshot`-shaped mapping passed to the credit scorer. -/
structure FinancialData where
  no_of_invoices : ℕ
  total_amount : ℚ
  total_amount_pending : ℚ
  total_amount_paid : ℚ
  tax : ℚ
  extra_charges : ℚ
  payment_completion_rate : ℚ
  paid_to_pending_ratio : ℚ
deriving DecidableEq

/-- `financial_data` as built by `get_user_credit_score` in
blockchain_loan_api.py: guarded ratios with neutral defaults 0.7 and 0.5. -/
def blockchainFinancialData (invoices : List InvoiceRow) : FinancialData :=
  { no_of_invoices := invoices.length
    total_amount := totalAmountOf invoices
    total_amount_pending := totalPendingOf invoices
    total_amount_paid := totalPaidOf invoices
    tax := (invoices.map (·.tax_amount)).sum
    extra_charges := (invoices.map (·.extra_charges)).sum
    payment_completion_rate :=
      if totalAmountOf invoices > 0 then totalPaidOf invoices / totalAmountOf invoices
      else 7/10
    paid_to_pending_ratio :=
      if totalPendingOf invoices > 0 then totalPaidOf invoices / totalPendingOf invoices
      else 1/2 }

/-- `total_financial_data` as built by the supabase_api.py aggregation:
guarded ratios with defaults 0.0 and 1.0. -/
def supabaseFinancialData (invoices : List InvoiceRow) : FinancialData :=
  { no_of_invoices := invoices.length
    total_amount := totalAmountOf invoices
    total_amount_pending := totalPendingOf invoices
    total_amount_paid := totalPaidOf invoices
    tax := (invoices.map (·.tax_amount)).sum
    extra_charges := (invoices.map (·.extra_charges)).sum
    payment_completion_rate :=
      if totalAmountOf invoices > 0 then totalPaidOf invoices / totalAmountOf invoices
      else 0
    paid_to_pending_ratio :=
      if totalPendingOf invoices > 0 then totalPaidOf invoices / totalPendingOf invoices
      else 1 }

/-! ### Claim C8 -/

/-- An invoice row making the aggregate `total_amount` zero. -/
def zeroInvoice : InvoiceRow :=
  { total_amount := 0, status := "pending", tax_amount := 0, extra_charges := 0 }

/-- **C8 counterexample.** The supabase_api call site does not use the
0.7 default: with `total_amount = 0` it sets `payment_completion_rate`
to 0.0. -/
theorem supabase_completion_rate_not_07 :
    totalAmountOf [zeroInvoice] = 0 ∧
      (supabaseFinancialData [zeroInvoice]).payment_completion_rate = 0 ∧
      ((0:ℚ) ≠ 7/10) := by
  refine ⟨by simp [totalAmountOf, zeroInvoice], ?_, by norm_num⟩
  simp [supabaseFinancialData, totalAmountOf, totalPaidOf, zeroInvoice]

/-- An all-paid invoice row: positive `total_amount`, zero
`total_pending`. -/
def paidInvoice : InvoiceRow :=
  { total_amount := 1000, status := "paid", tax_amount := 0, extra_charges := 0 }

/-- **C8 (amended).** Neither call site divides by a zero denominator, and
the two defaults are independent: in `get_user_credit_score`
(blockchain_loan_api.py), `total_amount = 0` gives
`payment_completion_rate = 0.7` and — separately — `total_pending = 0`
gives `paid_to_pending_ratio = 0.5`; in the supabase_api aggregation the
corresponding defaults are 0.0 and 1.0, not 0.7. -/
theorem financial_snapshot_defaults (invoices : List InvoiceRow) :
    (totalAmountOf invoices = 0 →
        (blockchainFinancialData invoices).payment_completion_rate = 7/10 ∧
          (supabaseFinancialData invoices).payment_completion_rate = 0) ∧
    (totalPendingOf invoices = 0 →
        (blockchainFinancialData invoices).paid_to_pending_ratio = 1/2 ∧
          (supabaseFinancialData invoices).paid_to_pending_ratio = 1) := by
  constructor
  · intro h
    simp [blockchainFinancialData, supabaseFinancialData, h]
  · intro h
    simp [blockchainFinancialData, supabaseFinancialData, h]

/-- Witness for `financial_snapshot_defaults`: the completion-rate
defaults on a zero-amount history, and the ratio defaults on an all-paid
history (`total_pending = 0` while `total_amount > 0`). -/
theorem financial_snapshot_defaults_witness :
    ((blockchainFinancialData [zeroInvoice]).payment_completion_rate = 7/10 ∧
       (supabaseFinancialData [zeroInvoice]).payment_completion_rate = 0) ∧
    ((blockchainFinancialData [paidInvoice]).paid_to_pending_ratio = 1/2 ∧
       (supabaseFinancialData [paidInvoice]).paid_to_pending_ratio = 1) :=
  ⟨(financial_snapshot_defaults [zeroInvoice]).1
      (by simp [totalAmountOf, zeroInvoice]),
   (financial_snapshot_defaults [paidInvoice]).2
      (by simp [totalPendingOf, paidInvoice])⟩

/-! ## Parsing the upstream credit scorer's output (`process_invoice`,
combined_api.py lines 430–445).  The scorer's output is a Python value:
a string (parsed with `json.loads`; failure raises `json.JSONDecodeError`,
which the handler catches, substituting `{"credit_score_analysis": {}}`)
or any non-string value used as-is.  The handler then evaluates
`parsed.get('credit_score_analysis', {}).get('final_weighted_credit_score',
0)`.  Each `.get` exists only on mappings: when the parsed value is not a
dict, or its `credit_score_analysis` value is not a dict, an
`AttributeError` is raised that the `except json.JSONDecodeError` clause
does not catch, and the request fails with HTTP 500.  The full output
space is modelled below (`RawScorerOutput`); the well-formed fragment on
which extraction completes (`ScorerOutput`) is kept as the upstream domain
of the duplicate-upload model, whose insert-time scenarios presuppose the
handler survived extraction and reached the insert (`toRawScorerOutput`
relates the two). -/

/-- The `credit_score_analysis` object as consulted by this path: only the
`final_weighted_credit_score` key is read, and it may be missing. -/
structure CreditAnalysis where
  final_weighted_credit_score : Option ℚ
deriving DecidableEq

/-- The well-formed scorer outputs, on which the `.get` chain completes:
non-JSON text (replaced by the fallback), or a dict whose
`credit_score_analysis` key is missing or is itself a dict. -/
inductive ScorerOutput where
  | nonJson (raw : String)
  | json (credit_score_analysis : Option CreditAnalysis)
deriving DecidableEq

/-- `credit_score_result_parsed`, reduced to its `credit_score_analysis`
key: the `except json.JSONDecodeError` branch substitutes
`{"credit_score_analysis": {}}` for malformed output. -/
def parsedCreditAnalysis : ScorerOutput → Option CreditAnalysis
  | .nonJson _ => some { final_weighted_credit_score := none }
  | .json a => a

/-- `credit_score_result_parsed.get('credit_score_analysis', {})`. -/
def creditScoreAnalysisOf (out : ScorerOutput) : CreditAnalysis :=
  (parsedCreditAnalysis out).getD { final_weighted_credit_score := none }

/-- `individual_credit_score = ….get('final_weighted_credit_score', 0)`. -/
def individualCreditScore (out : ScorerOutput) : ℚ :=
  (creditScoreAnalysisOf out).final_weighted_credit_score.getD 0

/-- The `credit_score_analysis` value found in a parsed result: a mapping
(whose `final_weighted_credit_score` key may be missing) or any non-dict
value (number, list, string, null, …) on which `.get` raises. -/
inductive AnalysisField where
  | dict (final_weighted_credit_score : Option ℚ)
  | nonDict
deriving DecidableEq

/-- A parsed upstream result as the `.get` chain distinguishes it: a
mapping whose `credit_score_analysis` key is missing or holds an
`AnalysisField`, or any non-dict value on which the first `.get` raises. -/
inductive ParsedResult where
  | dict (credit_score_analysis : Option AnalysisField)
  | nonDict
deriving DecidableEq

/-- The raw output of `calculate_credit_score_main` as the handler sees
it: a string `json.loads` rejects, a string it parses to some value, or a
non-string value used without parsing. -/
inductive RawScorerOutput where
  | strInvalid (raw : String)
  | strValid (v : ParsedResult)
  | obj (v : ParsedResult)
deriving DecidableEq

/-- Lines 432–439: strings are parsed, `json.JSONDecodeError` is replaced
by `{"credit_score_analysis": {}}`, non-strings pass through. -/
def parseScorerOutput : RawScorerOutput → ParsedResult
  | .strInvalid _ => .dict (some (.dict none))
  | .strValid v => v
  | .obj v => v

/-- Lines 441–445, `.get('credit_score_analysis',
{}).get('final_weighted_credit_score', 0)`: `Except.error` models an
uncaught `AttributeError` (the caller receives HTTP 500). -/
def extractIndividualScore : ParsedResult → Except String ℚ
  | .nonDict => .error "AttributeError"
  | .dict none => .ok 0
  | .dict (some .nonDict) => .error "AttributeError"
  | .dict (some (.dict none)) => .ok 0
  | .dict (some (.dict (some q))) => .ok q

/-- The whole parse-and-extract path on a raw upstream output. -/
def processScorerOutput (out : RawScorerOutput) : Except String ℚ :=
  extractIndividualScore (parseScorerOutput out)

/-- The well-formed fragment embeds into the raw output space. -/
def toRawScorerOutput : ScorerOutput → RawScorerOutput
  | .nonJson s => .strInvalid s
  | .json none => .obj (.dict none)
  | .json (some { final_weighted_credit_score := none }) =>
      .obj (.dict (some (.dict none)))
  | .json (some { final_weighted_credit_score := some q }) =>
      .obj (.dict (some (.dict (some q))))

/-- On the well-formed fragment the full model succeeds with exactly the
score the fragment's extraction computes, so quantifying the
duplicate-upload model over `ScorerOutput` quantifies over the uploads
that survive extraction. -/
theorem processScorerOutput_toRaw (out : ScorerOutput) :
    processScorerOutput (toRawScorerOutput out) =
      .ok (individualCreditScore out) := by
  match out with
  | .nonJson s => rfl
  | .json none => rfl
  | .json (some { final_weighted_credit_score := none }) => rfl
  | .json (some { final_weighted_credit_score := some q }) => rfl

/-! ### Claim C9 -/

/-- **C9 counterexample.** An upstream output of `"null"` (a string that
parses as JSON to a non-dict), a non-str non-dict value such as `None`,
or a dict whose `credit_score_analysis` is not a dict, makes the `.get`
chain raise an `AttributeError` that `except json.JSONDecodeError` does
not catch: the caller gets HTTP 500, not the zero/empty fallback. -/
theorem credit_score_parse_raises :
    processScorerOutput (.strValid .nonDict) = .error "AttributeError" ∧
      processScorerOutput (.obj .nonDict) = .error "AttributeError" ∧
      processScorerOutput (.obj (.dict (some .nonDict)))
        = .error "AttributeError" :=
  ⟨rfl, rfl, rfl⟩

/-- **C9 (amended).** Non-JSON text is caught and replaced by the empty
fallback with score 0, and every dict-shaped result (whether a parsed
string or a direct object) yields a numeric score without an exception —
the stored value when present, else 0; but when the output parses to a
JSON non-object, is a non-string non-dict value, or carries a non-dict
`credit_score_analysis`, the `.get` chain raises an `AttributeError` that
the `except json.JSONDecodeError` clause does not catch, and the caller
receives an HTTP 500 error instead of a fallback structure.  Parsed
strings and direct objects are treated identically. -/
theorem credit_score_parse_outcomes (s : String) (q : ℚ) :
    processScorerOutput (.strInvalid s) = .ok 0 ∧
      processScorerOutput (.strValid (.dict none)) = .ok 0 ∧
      processScorerOutput (.strValid (.dict (some (.dict none)))) = .ok 0 ∧
      processScorerOutput (.strValid (.dict (some (.dict (some q))))) = .ok q ∧
      processScorerOutput (.obj (.dict (some (.dict (some q))))) = .ok q ∧
      processScorerOutput (.strValid .nonDict) = .error "AttributeError" ∧
      processScorerOutput (.strValid (.dict (some .nonDict)))
        = .error "AttributeError" ∧
      (∀ v : ParsedResult,
        processScorerOutput (.strValid v) = processScorerOutput (.obj v)) :=
  ⟨rfl, rfl, rfl, rfl, rfl, rfl, rfl, fun _ => rfl⟩

/-! ## Duplicate-invoice handling (`process_invoice`, combined_api.py
lines 374–410 and 468–502).  The handler's effect on storage and its
response are modelled explicitly; `insertView` is the table as seen by the
insert statement, which — in the race the code handles — may contain a row
inserted by a concurrent request after the pre-insert duplicate check ran
over `existing`.  The second component of the result counts the calls to
`calculate_credit_score_main` performed by the handler. -/

/-- The stored invoice columns this flow touches. -/
structure StoredInvoice where
  id : ℕ
  invoice_number : String
  client : String
  total_amount : ℚ
  credit_score : Option ℚ
  credit_score_data : CreditAnalysis
deriving DecidableEq

/-- The extracted `invoice_details` fields this flow reads. -/
structure ExtractedInvoice where
  invoice_number : String
  client : String
  total_amount : ℚ
deriving DecidableEq

/-- Python string slicing `str(val)[:n]`. -/
def pyTruncate (s : String) (n : ℕ) : String := ⟨s.data.take n⟩

/-- What the handler did: returned an existing record found by the
pre-insert duplicate check, returned an existing record after a unique-key
violation at insert time, or inserted a new row. -/
inductive UploadOutcome where
  | dupEarly (existing : StoredInvoice)
  | dupAtInsert (existing : StoredInvoice)
  | inserted (row : StoredInvoice)
deriving DecidableEq

/-- The duplicate path of `process_invoice`: check `existing` for the
sanitized invoice number; if absent, compute the credit score (counted),
then attempt the insert, which hits the unique-key race iff `insertView`
already holds the number. -/
def processInvoiceUpload (existing insertView : List StoredInvoice)
    (details : ExtractedInvoice) (upstream : ScorerOutput) (newId : ℕ) :
    UploadOutcome × ℕ :=
  let sanitized := pyTruncate details.invoice_number 255
  match existing.find? (fun inv => inv.invoice_number == sanitized) with
  | some dup => (.dupEarly dup, 0)
  | none =>
    let score := individualCreditScore upstream
    match insertView.find? (fun inv => inv.invoice_number == sanitized) with
    | some dup => (.dupAtInsert dup, 1)
    | none =>
      (.inserted
        { id := newId
          invoice_number := sanitized
          client := pyTruncate details.client 255
          total_amount := details.total_amount
          credit_score := some score
          credit_score_data := creditScoreAnalysisOf upstream }, 1)

/-- The rows this handler wrote: none on either duplicate path, one new
row otherwise. -/
def storeAfter (existing : List StoredInvoice) : UploadOutcome → List StoredInvoice
  | .dupEarly _ => existing
  | .dupAtInsert _ => existing
  | .inserted row => existing ++ [row]

/-- The response fields returned to the caller. -/
structure UploadResponse where
  duplicate : Bool
  invoice_id : ℕ
  invoice_number : String
  client : String
  total_amount : ℚ
  credit_score : Option ℚ
  credit_score_analysis : CreditAnalysis
deriving DecidableEq

/-- Both duplicate returns build the response from the stored record's own
fields, flagged `"duplicate": True`. -/
def dupResponse (d : StoredInvoice) : UploadResponse :=
  { duplicate := true
    invoice_id := d.id
    invoice_number := d.invoice_number
    client := d.client
    total_amount := d.total_amount
    credit_score := d.credit_score
    credit_score_analysis := d.credit_score_data }

/-- The response for each outcome (lines 394–410, 484–500, 511–526). -/
def responseOf : UploadOutcome → UploadResponse
  | .dupEarly d => dupResponse d
  | .dupAtInsert d => dupResponse d
  | .inserted row =>
    { duplicate := false
      invoice_id := row.id
      invoice_number := row.invoice_number
      client := row.client
      total_amount := row.total_amount
      credit_score := row.credit_score
      credit_score_analysis := row.credit_score_data }

/-! ### Claim C10 -/

/-- A record already stored for the user. -/
def storedInv : StoredInvoice :=
  { id := 7
    invoice_number := "INV-1"
    client := "Acme"
    total_amount := 1200
    credit_score := some 55
    credit_score_data := { final_weighted_credit_score := some 55 } }

/-- An upload extracting the same invoice number. -/
def newDetails : ExtractedInvoice :=
  { invoice_number := "INV-1", client := "Acme", total_amount := 1300 }

/-- **C10 counterexample.** When the duplicate is only visible at insert
time (unique-key race), the credit score for the attempted upload HAS
already been computed — one scorer call, not zero — even though its result
is discarded and the stored record is returned unmodified. -/
theorem duplicate_at_insert_recomputes :
    processInvoiceUpload [] [storedInv] newDetails
        (.json (some { final_weighted_credit_score := some 90 })) 8
      = (.dupAtInsert storedInv, 1) ∧ (1:ℕ) ≠ 0 := by
  exact ⟨rfl, by norm_num⟩

/-- **C10 (amended).** On either duplicate path the handler returns the
existing record marked as a duplicate, inserts no row and leaves the
stored record untouched; the pre-insert detection path performs no credit
score computation, while the insert-time (unique-key violation) path has
already performed exactly one, whose result is discarded. -/
theorem duplicate_upload_frame (existing insertView : List StoredInvoice)
    (details : ExtractedInvoice) (upstream : ScorerOutput) (newId : ℕ)
    (d : StoredInvoice) :
    (existing.find?
        (fun inv => inv.invoice_number == pyTruncate details.invoice_number 255)
          = some d →
        processInvoiceUpload existing insertView details upstream newId
            = (.dupEarly d, 0) ∧
          storeAfter existing (.dupEarly d) = existing ∧
          responseOf (.dupEarly d) = dupResponse d) ∧
    (existing.find?
        (fun inv => inv.invoice_number == pyTruncate details.invoice_number 255)
          = none →
      insertView.find?
        (fun inv => inv.invoice_number == pyTruncate details.invoice_number 255)
          = some d →
        processInvoiceUpload existing insertView details upstream newId
            = (.dupAtInsert d, 1) ∧
          storeAfter existing (.dupAtInsert d) = existing ∧
          responseOf (.dupAtInsert d) = dupResponse d) := by
  constructor
  · intro h
    unfold processInvoiceUpload
    simp only [h]
    exact ⟨trivial, rfl, rfl⟩
  · intro h0 h1
    unfold processInvoiceUpload
    simp only [h0, h1]
    exact ⟨trivial, rfl, rfl⟩

/-- Witness for `duplicate_upload_frame`: the pre-insert check finds the
stored record and the handler returns it unchanged with no scorer call. -/
theorem duplicate_upload_frame_witness :
    processInvoiceUpload [storedInv] [storedInv] newDetails (.json none) 9
        = (.dupEarly storedInv, 0) ∧
      storeAfter [storedInv] (.dupEarly storedInv) = [storedInv] ∧
      responseOf (.dupEarly storedInv) = dupResponse storedInv :=
  (duplicate_upload_frame [storedInv] [storedInv] newDetails (.json none) 9
    storedInv).1 rfl

end Nexora
